import Mathlib

/-
Verification of the websocket relay coordinator of the aws-lambdas-go
repository: a shallow embedding of the Go handler (handleConnect,
handleDisconnect, handleSendMessage, callAnthropicAPI, closeConnection,
createResponse) together with proofs about quota handling, stream
decoding, cleanup and session-store bookkeeping.

Modelling conventions:
- DynamoDB, the Anthropic endpoint and the API Gateway push transport are
  external collaborators; each call to them is represented by an oracle
  value supplied in an environment record (an Except or Bool per call),
  so that one run of a handler is a pure function of its environment.
- JSON payloads on data lines are carried already parsed: a data line
  holds some fields when json.Unmarshal into map[string]interface\x7b\x7d
  succeeds, and none when it fails (invalid JSON or non-object top level).
- Goroutine/channel interleaving of handleSendMessage is resolved as in
  the source: the text channel is unbuffered, so the producer and the
  consumer rendezvous on every fragment and delivery order is the
  production order; the only scheduling freedom left is when ctx.Done
  fires, modelled by an optional iteration index (timeoutAt).
-/

namespace Relay

/-- Parsed JSON values, as produced by encoding/json into interface\x7b\x7d. -/
inductive Json where
  | str : String → Json
  | num : Int → Json
  | jsonBool : Bool → Json
  | null : Json
  | arr : List Json → Json
  | obj : List (String × Json) → Json

/-- Field lookup in a decoded JSON object (Go map indexing). -/
def lookupField : List (String × Json) → String → Option Json
  | [], _ => none
  | (k, v) :: rest, key => if k = key then some v else lookupField rest key

/-- The nested text fragment of a content_block_delta payload:
eventData["delta"] must be an object and its "text" field a string
(part_007 lines 335-338); any other shape yields none. -/
def deltaText (eventData : List (String × Json)) : Option String :=
  match lookupField eventData "delta" with
  | some (Json.obj delta) =>
    match lookupField delta "text" with
    | some (Json.str s) => some s
    | _ => none
  | _ => none

/-- One line of the upstream response body, as classified by the scanning
loop (part_007 lines 312-319): an "event: " line carrying the tag name, a
"data: " line carrying its parse result, or any other line. -/
inductive StreamLine where
  | eventLine : String → StreamLine
  | dataLine : Option (List (String × Json)) → StreamLine
  | otherLine : StreamLine

/-- How the scanner ends when the line list is exhausted: clean EOF
(scanner.Err() = nil) or a scan error. -/
inductive ScanEnd where
  | eof : ScanEnd
  | scanErr : ScanEnd

/-- How one decode run ends. doneStop: message_stop seen, close(doneChan)
and return nil. doneEof: line list exhausted with clean EOF, the source
also runs close(doneChan) and returns nil (part_007 lines 353-361).
errUndecodable: json.Unmarshal failed on a data line, error returned with
doneChan untouched. errScan: scanner.Err() non-nil, error returned. -/
inductive DecodeOutcome where
  | doneStop : DecodeOutcome
  | doneEof : DecodeOutcome
  | errUndecodable : DecodeOutcome
  | errScan : DecodeOutcome
deriving DecidableEq

/-- Result of the scanning loop: the text fragments pushed to textChan in
order, and how the loop ended. -/
structure DecodeResult where
  texts : List String
  outcome : DecodeOutcome
deriving DecidableEq

/-- Whether the outcome closes doneChan (returns nil error). -/
def doneOf : DecodeOutcome → Bool
  | DecodeOutcome.doneStop => true
  | DecodeOutcome.doneEof => true
  | DecodeOutcome.errUndecodable => false
  | DecodeOutcome.errScan => false

/-- The scanning loop of callAnthropicAPI (part_007 lines 312-361).
The Go switch is over distinct string cases, so testing
content_block_delta and message_stop first and collapsing the purely
logging cases (message_start, content_block_start, ping,
content_block_stop, message_delta, default) into the fall-through branch
preserves its meaning. json.Unmarshal runs before the switch, so an
undecodable data line aborts whatever the current event tag is. -/
def scanLines : String → List StreamLine → ScanEnd → DecodeResult
  | _, [], ScanEnd.eof => ⟨[], DecodeOutcome.doneEof⟩
  | _, [], ScanEnd.scanErr => ⟨[], DecodeOutcome.errScan⟩
  | _, StreamLine.eventLine name :: rest, e => scanLines name rest e
  | currentEvent, StreamLine.otherLine :: rest, e => scanLines currentEvent rest e
  | _, StreamLine.dataLine none :: _, _ => ⟨[], DecodeOutcome.errUndecodable⟩
  | currentEvent, StreamLine.dataLine (some eventData) :: rest, e =>
    if currentEvent = "content_block_delta" then
      match deltaText eventData with
      | some t =>
        let r := scanLines currentEvent rest e
        ⟨t :: r.texts, r.outcome⟩
      | none => scanLines currentEvent rest e
    else if currentEvent = "message_stop" then
      ⟨[], DecodeOutcome.doneStop⟩
    else
      scanLines currentEvent rest e

/-- The upstream interaction of callAnthropicAPI: either the POST itself
fails (request marshalling or client.Do), or a response body arrives as a
list of lines with a scanner-end condition. -/
inductive Upstream where
  | transportErr : Upstream
  | response : List StreamLine → ScanEnd → Upstream

/-- Observable behaviour of one callAnthropicAPI run: fragments sent on
textChan, whether doneChan was closed, whether a non-nil error was
returned (and hence pushed on errorChan by the goroutine wrapper). -/
structure ApiResult where
  texts : List String
  doneSignaled : Bool
  apiError : Bool

/-- callAnthropicAPI (part_007 lines 285-362): a transport failure
returns the error before any line is read; otherwise the scanning loop
runs and the returned error is nil exactly when doneChan was closed. -/
def callAnthropicAPI : Upstream → ApiResult
  | Upstream.transportErr => ⟨[], false, true⟩
  | Upstream.response lines e =>
    let r := scanLines "" lines e
    ⟨r.texts, doneOf r.outcome, !doneOf r.outcome⟩

/-- True when the line list contains an "event: message_stop" line. -/
def hasStopEvent (lines : List StreamLine) : Bool :=
  lines.any fun l =>
    match l with
    | StreamLine.eventLine name => name == "message_stop"
    | _ => false

/-- How the consumer select loop of handleSendMessage returns
(part_007 lines 197-229). -/
inductive RelayEnd where
  | completed : RelayEnd
  | upstreamError : RelayEnd
  | clientSendError : RelayEnd
  | timeout : RelayEnd
deriving DecidableEq

/-- Result of the consumer loop: fragments successfully posted to the
client connection, the branch that returned, and the fragments the
producer still has to send on the unbuffered channel at that moment
(nonempty exactly when the producer stays blocked forever). -/
structure LoopResult where
  delivered : List String
  fin : RelayEnd
  producerPending : List String

/-- Countdown of the iteration at which ctx.Done is taken. -/
def decr : Option Nat → Option Nat
  | none => none
  | some n => some (n - 1)

/-- The consumer select loop (part_007 lines 197-229), resolved against
the producer semantics. While fragments remain, the producer is blocked
on the unbuffered textChan send, so the only ready branches are textChan
and ctx.Done; timeoutAt = some 0 means ctx.Done is taken now. A fragment
is received (rendezvous), then posted to the client; a failed post
returns through closeConnection with the remaining fragments never
received. Once all fragments have been emitted the producer closes
doneChan (done = true) or puts its error on the buffered errorChan and
finishes either way, so producerPending is empty from then on. -/
def runLoop (sendOk : Nat → Bool) (done : Bool) :
    List String → Option Nat → Nat → LoopResult
  | [], tAt, _ =>
    if tAt = some 0 then ⟨[], RelayEnd.timeout, []⟩
    else if done then ⟨[], RelayEnd.completed, []⟩
    else ⟨[], RelayEnd.upstreamError, []⟩
  | t :: rest, tAt, idx =>
    if tAt = some 0 then ⟨[], RelayEnd.timeout, t :: rest⟩
    else if sendOk idx then
      let r := runLoop sendOk done rest (decr tAt) (idx + 1)
      ⟨t :: r.delivered, r.fin, r.producerPending⟩
    else ⟨[], RelayEnd.clientSendError, rest⟩

/-- The API Gateway response value (events.APIGatewayProxyResponse):
Headers is nil unless explicitly attached. -/
structure ProxyResponse where
  body : String
  statusCode : Int
  headers : Option (List (String × String))
deriving DecidableEq

/-- createResponse (part_007 lines 583-598, identical in part_002 lines
217-234): the body is always the given message, the headers map is
attached only when non-empty, and the returned Go error is non-nil
exactly when statusCode >= 400. -/
def createResponse (message : String) (statusCode : Int)
    (headers : List (String × String)) : ProxyResponse × Option String :=
  let response : ProxyResponse :=
    { body := message
      statusCode := statusCode
      headers := if headers.length > 0 then some headers else none }
  if statusCode ≥ 400 then
    (response, some ("HTTP " ++ toString statusCode ++ ": " ++ message))
  else
    (response, none)

/-- Oracle results for the external calls made by closeConnection:
createWebSocketClient, sendWebSocketMessage, closeWebSocketConnection,
removeConnectionFromDynamoDB. -/
structure CloseEnv where
  wsClientOk : Bool
  sendMsgOk : Bool
  closeOk : Bool
  removeOk : Bool

/-- Which cleanup calls closeConnection reached, and its return value. -/
structure CloseResult where
  sendAttempted : Bool
  closeAttempted : Bool
  removeAttempted : Bool
  response : ProxyResponse × Option String

/-- closeConnection (part_007 lines 548-574). When the push-transport
client cannot be constructed it returns a 500 response at once, reaching
neither the connection teardown nor the session delete. Otherwise the
message (when non-empty) is sent, the connection teardown and the session
delete are both executed in sequence with their errors only logged, and
the response is a 200 independent of those errors. -/
def closeConnection (env : CloseEnv) (message : String) : CloseResult :=
  if env.wsClientOk = false then
    { sendAttempted := false
      closeAttempted := false
      removeAttempted := false
      response := createResponse message 500 [] }
  else
    { sendAttempted := message != ""
      closeAttempted := true
      removeAttempted := true
      response := createResponse "" 200 [] }

/-- Oracle results for the external calls made by handleConnect:
the Sec-WebSocket-Protocol header value, getUserHashFromAuth,
storeConnectionInDynamoDB, and the environment of any closeConnection. -/
structure ConnectEnv where
  authKey : String
  authLookup : Except String String
  storeOk : Bool
  closeEnv : CloseEnv

/-- Observable behaviour of one handleConnect run. -/
structure ConnectResult where
  storePuts : Nat
  sessionStored : Bool
  accepted : Bool
  closeMsg : Option String
  response : ProxyResponse × Option String

/-- handleConnect (part_007 lines 52-74): an empty header or a failed
auth lookup goes to closeConnection without touching the session store; a
resolved identity leads to exactly one PutItem, and on its success the
connection is accepted with a 200 echoing the protocol header. -/
def handleConnect (env : ConnectEnv) : ConnectResult :=
  if env.authKey = "" then
    { storePuts := 0
      sessionStored := false
      accepted := false
      closeMsg := some "Authentication required"
      response := (closeConnection env.closeEnv "Authentication required").response }
  else
    match env.authLookup with
    | Except.error _ =>
      { storePuts := 0
        sessionStored := false
        accepted := false
        closeMsg := some "Failed to authenticate user"
        response := (closeConnection env.closeEnv "Failed to authenticate user").response }
    | Except.ok _ =>
      if env.storeOk then
        { storePuts := 1
          sessionStored := true
          accepted := true
          closeMsg := none
          response := createResponse "" 200 [("Sec-WebSocket-Protocol", env.authKey)] }
      else
        { storePuts := 1
          sessionStored := false
          accepted := false
          closeMsg := some "Failed to store connection"
          response := (closeConnection env.closeEnv "Failed to store connection").response }

/-- Oracle results for the external calls of one handleSendMessage run,
in call order: getUserHashFromConnection, getRemainingRequests, the whole
body parse / validation / template pipeline (collapsed into one Except
whose error is the closeConnection message), the upstream interaction,
createWebSocketClient, the per-fragment PostToConnection results, the
ctx.Done schedule, the second getUserHashFromConnection of the doneChan
branch, decreaseRemainingRequests, and the closeConnection environment. -/
structure MsgEnv where
  sessionUser : Except String String
  quota : Except String Int
  parsed : Except String String
  upstream : Upstream
  wsClientOk : Bool
  sendOk : Nat → Bool
  timeoutAt : Option Nat
  doneUser : Except String String
  decrOk : Bool
  closeEnv : CloseEnv

/-- Observable behaviour of one handleSendMessage run. -/
structure MsgResult where
  bodyParseReached : Bool
  upstreamCalled : Bool
  delivered : List String
  fin : Option RelayEnd
  decrementAttempted : Bool
  decremented : Bool
  producerPending : List String
  closeMsg : Option String
  response : ProxyResponse × Option String

/-- A handleSendMessage return that goes through closeConnection before
the streaming phase starts. -/
def shortCircuit (ce : CloseEnv) (bodyParseReached : Bool) (msg : String) : MsgResult :=
  { bodyParseReached := bodyParseReached
    upstreamCalled := false
    delivered := []
    fin := none
    decrementAttempted := false
    decremented := false
    producerPending := []
    closeMsg := some msg
    response := (closeConnection ce msg).response }

/-- Is an Except in its ok constructor. -/
def exceptOk {α β : Type} : Except α β → Bool
  | Except.ok _ => true
  | Except.error _ => false

/-- The tail of the consumer loop after it leaves the select (part_007
lines 199-228): the doneChan branch re-reads the user hash and, only when
that succeeds, attempts one quota decrement, both failures merely logged,
then closes with an empty message; the errorChan, send-failure and
ctx.Done branches close with their respective messages and never touch
the quota. -/
def finishRelay (env : MsgEnv) (r : LoopResult) : MsgResult :=
  match r.fin with
  | RelayEnd.completed =>
    { bodyParseReached := true
      upstreamCalled := true
      delivered := r.delivered
      fin := some RelayEnd.completed
      decrementAttempted := exceptOk env.doneUser
      decremented := exceptOk env.doneUser && env.decrOk
      producerPending := r.producerPending
      closeMsg := some ""
      response := (closeConnection env.closeEnv "").response }
  | RelayEnd.upstreamError =>
    { bodyParseReached := true
      upstreamCalled := true
      delivered := r.delivered
      fin := some RelayEnd.upstreamError
      decrementAttempted := false
      decremented := false
      producerPending := r.producerPending
      closeMsg := some "Error calling Anthropic API"
      response := (closeConnection env.closeEnv "Error calling Anthropic API").response }
  | RelayEnd.clientSendError =>
    { bodyParseReached := true
      upstreamCalled := true
      delivered := r.delivered
      fin := some RelayEnd.clientSendError
      decrementAttempted := false
      decremented := false
      producerPending := r.producerPending
      closeMsg := some "Failed to send WebSocket message"
      response := (closeConnection env.closeEnv "Failed to send WebSocket message").response }
  | RelayEnd.timeout =>
    { bodyParseReached := true
      upstreamCalled := true
      delivered := r.delivered
      fin := some RelayEnd.timeout
      decrementAttempted := false
      decremented := false
      producerPending := r.producerPending
      closeMsg := some "Request timeout"
      response := (closeConnection env.closeEnv "Request timeout").response }

/-- The streaming phase of handleSendMessage (part_007 lines 176-229):
the producer goroutine is started before createWebSocketClient, so a
failed client creation still leaves the producer emitting; it then stays
blocked on its first unbuffered send whenever it has fragments, because
the consumer never enters the loop. -/
def streamPhase (env : MsgEnv) : MsgResult :=
  let api := callAnthropicAPI env.upstream
  if env.wsClientOk = false then
    { bodyParseReached := true
      upstreamCalled := true
      delivered := []
      fin := none
      decrementAttempted := false
      decremented := false
      producerPending := api.texts
      closeMsg := some "Failed to create WebSocket client"
      response := (closeConnection env.closeEnv "Failed to create WebSocket client").response }
  else
    finishRelay env (runLoop env.sendOk api.doneSignaled api.texts env.timeoutAt 0)

/-- handleSendMessage (part_007 lines 86-230): session lookup, quota
read, quota gate, body parse / validation / templates, then the
streaming phase. -/
def handleSendMessage (env : MsgEnv) : MsgResult :=
  match env.sessionUser with
  | Except.error e => shortCircuit env.closeEnv false ("Failed to retrieve user: " ++ e)
  | Except.ok _ =>
    match env.quota with
    | Except.error e =>
      shortCircuit env.closeEnv false ("Failed to check remaining tokens: " ++ e)
    | Except.ok remainingRequests =>
      if remainingRequests ≤ 0 then
        shortCircuit env.closeEnv false "You have no remaining tokens available"
      else
        match env.parsed with
        | Except.error e => shortCircuit env.closeEnv true e
        | Except.ok _ => streamPhase env

/-- The WS_CONNECTIONS table, a DynamoDB key-value table keyed by
connection_id. -/
def Store : Type := List (String × String)

/-- GetItem on WS_CONNECTIONS. -/
def storeLookup : Store → String → Option String
  | [], _ => none
  | (k, v) :: rest, key => if k = key then some v else storeLookup rest key

/-- DeleteItem on WS_CONNECTIONS: removing an absent key succeeds and is
a no-op, per the DynamoDB contract used by removeConnectionFromDynamoDB
(part_007 lines 448-462). -/
def storeDelete (s : Store) (cid : String) : Store :=
  s.filter fun p => p.1 != cid

/-- PutItem on WS_CONNECTIONS: inserts or replaces the item for the key
(part_007 lines 397-417). -/
def storePut (s : Store) (cid uid : String) : Store :=
  (cid, uid) :: storeDelete s cid

/-- handleDisconnect (part_007 lines 76-84): unconditionally DeleteItem,
log any error, return 200 with a nil Go error either way. -/
def handleDisconnect (s : Store) (cid : String) :
    Store × (ProxyResponse × Option String) :=
  (storeDelete s cid, createResponse "" 200 [])

/-- The store-affecting handler invocations for one connection id.
connectOk: handleConnect resolved the identity and stored the session.
connectFail: handleConnect failed before or at the store and ran
closeConnection, whose session delete happens only when the
push-transport client was constructible (wsOk). message: a full
handleSendMessage, which always ends in closeConnection, again deleting
only when wsOk. disconnect: handleDisconnect. -/
inductive ConnOp where
  | connectOk : String → ConnOp
  | connectFail : Bool → ConnOp
  | message : Bool → ConnOp
  | disconnect : ConnOp

/-- Effect of one handler invocation on the WS_CONNECTIONS table. -/
def applyOp (cid : String) (s : Store) : ConnOp → Store
  | ConnOp.connectOk uid => storePut s cid uid
  | ConnOp.connectFail wsOk => if wsOk then storeDelete s cid else s
  | ConnOp.message wsOk => if wsOk then storeDelete s cid else s
  | ConnOp.disconnect => storeDelete s cid

/-- Table contents after a sequence of handler invocations. -/
def runOps (cid : String) (s : Store) (ops : List ConnOp) : Store :=
  ops.foldl (applyOp cid) s

/-- Spec-side formalisation of the claimed session-store invariant. The
claim reads every terminating transition (failed connect, message close,
disconnect) as removing the session record, so after a trace the record
is present exactly when the last such transition is a successful connect. -/
def openSession : List ConnOp → Option String :=
  List.foldl
    (fun _ op =>
      match op with
      | ConnOp.connectOk uid => some uid
      | ConnOp.connectFail _ => none
      | ConnOp.message _ => none
      | ConnOp.disconnect => none)
    none

/-- The session state actually maintained by the code: a closeConnection
that could not construct its push-transport client skips the session
delete, leaving the previous state in place. -/
def openSessionFrom : Option String → List ConnOp → Option String
  | acc, [] => acc
  | _, ConnOp.connectOk uid :: rest => openSessionFrom (some uid) rest
  | acc, ConnOp.connectFail wsOk :: rest =>
    openSessionFrom (if wsOk then none else acc) rest
  | acc, ConnOp.message wsOk :: rest =>
    openSessionFrom (if wsOk then none else acc) rest
  | _, ConnOp.disconnect :: rest => openSessionFrom none rest

/-- Session state from an empty table. -/
def openSessionCode (ops : List ConnOp) : Option String :=
  openSessionFrom none ops

/-- The route dispatch of HandleRequest (part_007 lines 41-50), with each
route's environment bundled into the event. -/
inductive RouteEvent where
  | connect : ConnectEnv → RouteEvent
  | disconnect : Store → String → RouteEvent
  | message : MsgEnv → RouteEvent

/-- HandleRequest: dispatch on the route key and return the branch's
response value. -/
def handleRequest : RouteEvent → ProxyResponse × Option String
  | RouteEvent.connect env => (handleConnect env).response
  | RouteEvent.disconnect s cid => (handleDisconnect s cid).2
  | RouteEvent.message env => (handleSendMessage env).response

/-- Data lines of the whole body annotated with the event tag they fall
under (the value of currentEvent when the scanning loop meets them). -/
def tagLines : String → List StreamLine → List (String × Option (List (String × Json)))
  | _, [] => []
  | _, StreamLine.eventLine name :: rest => tagLines name rest
  | currentEvent, StreamLine.otherLine :: rest => tagLines currentEvent rest
  | currentEvent, StreamLine.dataLine d :: rest =>
    (currentEvent, d) :: tagLines currentEvent rest

/-- Spec-side formalisation: the tagged data lines before the terminal
message_stop event, which are the only ones the Decoder reads. -/
def upToStop : List (String × Option (List (String × Json))) →
    List (String × Option (List (String × Json)))
  | [] => []
  | (tag, d) :: rest =>
    if tag = "message_stop" then [] else (tag, d) :: upToStop rest

/-- Spec-side formalisation: the delta.text values of the
content_block_delta events among some tagged data lines, in order, with
events of any other tag and deltas without the nested text shape
contributing nothing. -/
def deltasOf : List (String × Option (List (String × Json))) → List String
  | [] => []
  | (tag, d) :: rest =>
    if tag = "content_block_delta" then
      match d with
      | some eventData =>
        match deltaText eventData with
        | some t => t :: deltasOf rest
        | none => deltasOf rest
      | none => deltasOf rest
    else deltasOf rest

/-- The spec-side increment sequence of a body read to its terminal
event. -/
def specDeltasRead (lines : List StreamLine) : List String :=
  deltasOf (upToStop (tagLines "" lines))

/-- The spec-side increment sequence of the whole body, as the claim
states it (all content_block_delta events in the upstream stream). -/
def specDeltasAll (lines : List StreamLine) : List String :=
  deltasOf (tagLines "" lines)

/-- Is a relay end the completed one. -/
def isCompleted : Option RelayEnd → Bool
  | some RelayEnd.completed => true
  | _ => false

/-- A cleanup environment with every external call succeeding. -/
def allOkClose : CloseEnv :=
  { wsClientOk := true, sendMsgOk := true, closeOk := true, removeOk := true }

/-- A body that ends at EOF without any message_stop event: one text
delta, then the stream stops. -/
def eofLines : List StreamLine :=
  [ StreamLine.eventLine "content_block_delta"
  , StreamLine.dataLine (some [("delta", Json.obj [("text", Json.str "Hi")])]) ]

/-- A relay whose upstream body is empty and reaches clean EOF, with
every store and transport call succeeding and quota available. -/
def quotaEofEnv : MsgEnv :=
  { sessionUser := Except.ok "user1"
    quota := Except.ok 5
    parsed := Except.ok "rendered"
    upstream := Upstream.response [] ScanEnd.eof
    wsClientOk := true
    sendOk := fun _ => true
    timeoutAt := none
    doneUser := Except.ok "user1"
    decrOk := true
    closeEnv := allOkClose }

/-- A body with one delta before message_stop and one delta after it. -/
def postStopLines : List StreamLine :=
  [ StreamLine.eventLine "content_block_delta"
  , StreamLine.dataLine (some [("delta", Json.obj [("text", Json.str "a")])])
  , StreamLine.eventLine "message_stop"
  , StreamLine.dataLine (some [])
  , StreamLine.eventLine "content_block_delta"
  , StreamLine.dataLine (some [("delta", Json.obj [("text", Json.str "b")])]) ]

/-- A relay over postStopLines with every external call succeeding. -/
def postStopEnv : MsgEnv :=
  { sessionUser := Except.ok "user2"
    quota := Except.ok 2
    parsed := Except.ok "rendered"
    upstream := Upstream.response postStopLines ScanEnd.eof
    wsClientOk := true
    sendOk := fun _ => true
    timeoutAt := none
    doneUser := Except.ok "user2"
    decrOk := true
    closeEnv := allOkClose }

/-- A body with two deltas then a proper terminal event. -/
def twoDeltaLines : List StreamLine :=
  [ StreamLine.eventLine "content_block_delta"
  , StreamLine.dataLine (some [("delta", Json.obj [("text", Json.str "a")])])
  , StreamLine.dataLine (some [("delta", Json.obj [("text", Json.str "b")])])
  , StreamLine.eventLine "message_stop"
  , StreamLine.dataLine (some []) ]

/-- A relay over twoDeltaLines whose very first PostToConnection fails:
the consumer leaves through the send-failure branch while the producer
still holds the second fragment. -/
def leakEnv : MsgEnv :=
  { sessionUser := Except.ok "user3"
    quota := Except.ok 3
    parsed := Except.ok "rendered"
    upstream := Upstream.response twoDeltaLines ScanEnd.eof
    wsClientOk := true
    sendOk := fun _ => false
    timeoutAt := none
    doneUser := Except.ok "user3"
    decrOk := true
    closeEnv := allOkClose }

/-- A relay over eofLines with every external call succeeding: the body
carries one delta and then hits EOF with no terminal event. -/
def eofRelayEnv : MsgEnv :=
  { sessionUser := Except.ok "user4"
    quota := Except.ok 4
    parsed := Except.ok "rendered"
    upstream := Upstream.response eofLines ScanEnd.eof
    wsClientOk := true
    sendOk := fun _ => true
    timeoutAt := none
    doneUser := Except.ok "user4"
    decrOk := true
    closeEnv := allOkClose }

/-- A message whose resolved identity has zero remaining requests. -/
def quotaZeroEnv : MsgEnv := { quotaEofEnv with quota := Except.ok 0 }

/-- A completed relay whose doneChan-branch user lookup fails and whose
quota decrement would fail: cleanup must still run unchanged. -/
def decrFailEnv : MsgEnv :=
  { postStopEnv with doneUser := Except.error "store down", decrOk := false }

/-- A body with one delta followed by a proper terminal event. -/
def witStopLines : List StreamLine :=
  [ StreamLine.eventLine "content_block_delta"
  , StreamLine.dataLine (some [("delta", Json.obj [("text", Json.str "Hello")])])
  , StreamLine.eventLine "message_stop"
  , StreamLine.dataLine (some []) ]

/-- A relay over witStopLines with every external call succeeding. -/
def witStopEnv : MsgEnv :=
  { postStopEnv with upstream := Upstream.response witStopLines ScanEnd.eof }

/-- A connect whose credential matches no AUTH record. -/
def badConnectEnv : ConnectEnv :=
  { authKey := "key1", authLookup := Except.error "no item found for auth key",
    storeOk := true, closeEnv := allOkClose }

/-- A connect whose credential resolves and whose store put succeeds. -/
def goodConnectEnv : ConnectEnv :=
  { authKey := "key2", authLookup := Except.ok "user9",
    storeOk := true, closeEnv := allOkClose }

/-- A decodable content_block_delta payload whose delta object has no
"text" string field. -/
def noTextDelta : List (String × Json) :=
  [("delta", Json.obj [("type", Json.str "text_delta")])]

/-- When the consumer loop returns through the completed branch, every
fragment was received and posted, the producer had already finished its
sends, and the producer had signalled done. -/
theorem runLoop_completed (sendOk : Nat → Bool) (done : Bool) :
    ∀ (ts : List String) (tAt : Option Nat) (idx : Nat),
      (runLoop sendOk done ts tAt idx).fin = RelayEnd.completed →
      (runLoop sendOk done ts tAt idx).delivered = ts ∧
      (runLoop sendOk done ts tAt idx).producerPending = [] ∧ done = true := by
  intro ts
  induction ts with
  | nil =>
    intro tAt idx h
    by_cases h0 : tAt = some 0
    · simp [runLoop, h0] at h
    · by_cases hd : done
      · simp [runLoop, h0, hd]
      · simp [runLoop, h0, hd] at h
  | cons t rest ih =>
    intro tAt idx h
    by_cases h0 : tAt = some 0
    · simp [runLoop, h0] at h
    · by_cases hs : sendOk idx
      · simp only [runLoop, if_neg h0, if_pos hs] at h ⊢
        obtain ⟨ha, hb, hc⟩ := ih (decr tAt) (idx + 1) h
        subst hc
        simp [ha, hb]
      · simp [runLoop, h0, hs] at h

/-- The post-loop bookkeeping neither changes the loop result nor the end
it reports. -/
theorem finishRelay_fields (env : MsgEnv) (r : LoopResult) :
    (finishRelay env r).fin = some r.fin ∧
    (finishRelay env r).delivered = r.delivered := by
  cases hr : r.fin <;> simp [finishRelay, hr]

/-- A decode run that ends with doneChan closed produced, in order,
exactly the delta.text values of the content_block_delta data lines it
read, which are the tagged data lines up to the terminal message_stop. -/
theorem scanLines_texts (e : ScanEnd) :
    ∀ (lines : List StreamLine) (ce : String),
      doneOf (scanLines ce lines e).outcome = true →
      (scanLines ce lines e).texts = deltasOf (upToStop (tagLines ce lines)) := by
  intro lines
  induction lines with
  | nil =>
    intro ce h
    cases e <;> simp [scanLines, tagLines, upToStop, deltasOf]
  | cons l rest ih =>
    intro ce h
    cases l with
    | eventLine name =>
      simp only [scanLines, tagLines] at h ⊢
      exact ih name h
    | otherLine =>
      simp only [scanLines, tagLines] at h ⊢
      exact ih ce h
    | dataLine d =>
      cases d with
      | none => simp [scanLines, doneOf] at h
      | some eventData =>
        by_cases hdelta : ce = "content_block_delta"
        · subst hdelta
          simp only [scanLines, tagLines, upToStop, deltasOf] at h ⊢
          simp only [reduceIte] at h ⊢
          cases hdt : deltaText eventData with
          | none =>
            simp only [hdt] at h ⊢
            exact ih _ h
          | some t =>
            simp only [hdt] at h ⊢
            exact congrArg (t :: ·) (ih _ h)
        · by_cases hstop : ce = "message_stop"
          · subst hstop
            simp [scanLines, tagLines, upToStop, deltasOf] at h ⊢
          · simp only [scanLines, tagLines] at h ⊢
            rw [if_neg hdelta] at h ⊢
            rw [if_neg hstop] at h ⊢
            simp only [upToStop, deltasOf, if_neg hstop, if_neg hdelta]
            exact ih _ h

/-- A relay that ends in the completed branch went through the streaming
phase with a constructible client, delivered exactly the decoded
fragments, left no producer send pending, saw the decoder signal done,
closed with the empty message, and decremented exactly when the second
user lookup and the update both succeeded. -/
theorem handleSendMessage_completed (env : MsgEnv)
    (hfin : (handleSendMessage env).fin = some RelayEnd.completed) :
    env.wsClientOk = true ∧
    (callAnthropicAPI env.upstream).doneSignaled = true ∧
    (handleSendMessage env).delivered = (callAnthropicAPI env.upstream).texts ∧
    (handleSendMessage env).producerPending = [] ∧
    (handleSendMessage env).closeMsg = some "" ∧
    (handleSendMessage env).response = (closeConnection env.closeEnv "").response ∧
    (handleSendMessage env).decremented = (exceptOk env.doneUser && env.decrOk) := by
  unfold handleSendMessage at hfin ⊢
  cases hsu : env.sessionUser with
  | error e => simp [hsu, shortCircuit] at hfin
  | ok u =>
    simp only [hsu] at hfin ⊢
    cases hq : env.quota with
    | error e => simp [hq, shortCircuit] at hfin
    | ok q =>
      simp only [hq] at hfin ⊢
      by_cases hle : q ≤ 0
      · simp [hle, shortCircuit] at hfin
      · simp only [if_neg hle] at hfin ⊢
        cases hp : env.parsed with
        | error e => simp [hp, shortCircuit] at hfin
        | ok p =>
          simp only [hp] at hfin ⊢
          unfold streamPhase at hfin ⊢
          by_cases hws : env.wsClientOk = false
          · simp [hws] at hfin
          · simp only [if_neg hws] at hfin ⊢
            have hr := runLoop_completed env.sendOk (callAnthropicAPI env.upstream).doneSignaled
              (callAnthropicAPI env.upstream).texts env.timeoutAt 0
            rw [(finishRelay_fields env _).1] at hfin
            have hfin2 : (runLoop env.sendOk (callAnthropicAPI env.upstream).doneSignaled
                (callAnthropicAPI env.upstream).texts env.timeoutAt 0).fin =
                RelayEnd.completed := Option.some.inj hfin
            obtain ⟨ha, hb, hc⟩ := hr hfin2
            refine ⟨by simpa using hws, hc, ?_⟩
            simp [finishRelay, hfin2, ha, hb]

/-- The quota decrement of the doneChan branch is attempted exactly when
the relay ends completed and the second user lookup succeeds; no failing
end ever attempts it. -/
theorem decrementAttempted_eq (env : MsgEnv) :
    (handleSendMessage env).decrementAttempted =
      (isCompleted (handleSendMessage env).fin && exceptOk env.doneUser) := by
  unfold handleSendMessage
  cases hsu : env.sessionUser with
  | error e => simp [shortCircuit, isCompleted]
  | ok u =>
    cases hq : env.quota with
    | error e => simp [shortCircuit, isCompleted]
    | ok q =>
      by_cases hle : q ≤ 0
      · simp [hle, shortCircuit, isCompleted]
      · simp only [if_neg hle]
        cases hp : env.parsed with
        | error e => simp [shortCircuit, isCompleted]
        | ok p =>
          unfold streamPhase
          by_cases hws : env.wsClientOk = false
          · simp [hws, isCompleted]
          · simp only [if_neg hws]
            cases hr : (runLoop env.sendOk (callAnthropicAPI env.upstream).doneSignaled
                (callAnthropicAPI env.upstream).texts env.timeoutAt 0).fin <;>
              simp [finishRelay, hr, isCompleted]

/-- Deleting a key removes every entry for it. -/
theorem storeLookup_delete (s : Store) (cid : String) :
    storeLookup (storeDelete s cid) cid = none := by
  induction s with
  | nil => rfl
  | cons p rest ih =>
    by_cases h : p.1 = cid
    · simpa [storeDelete, List.filter_cons, h] using ih
    · simpa [storeDelete, List.filter_cons, h, storeLookup] using ih

/-- A put makes the key resolve to the stored identity. -/
theorem storeLookup_put (s : Store) (cid uid : String) :
    storeLookup (storePut s cid uid) cid = some uid := by
  simp [storePut, storeLookup]

/-- Unfolding one step of a trace. -/
theorem runOps_cons (cid : String) (s : Store) (op : ConnOp) (ops : List ConnOp) :
    runOps cid s (op :: ops) = runOps cid (applyOp cid s op) ops := rfl

/-- The table entry for a connection id after a trace is determined by
the fold of the trace over the entry present at the start. -/
theorem runOps_lookup (cid : String) :
    ∀ (ops : List ConnOp) (s : Store),
      storeLookup (runOps cid s ops) cid = openSessionFrom (storeLookup s cid) ops := by
  intro ops
  induction ops with
  | nil => intro s; rfl
  | cons op rest ih =>
    intro s
    rw [runOps_cons]
    cases op with
    | connectOk uid =>
      rw [ih]
      simp [applyOp, openSessionFrom, storeLookup_put]
    | connectFail wsOk =>
      rw [ih]
      cases wsOk <;> simp [applyOp, openSessionFrom, storeLookup_delete]
    | message wsOk =>
      rw [ih]
      cases wsOk <;> simp [applyOp, openSessionFrom, storeLookup_delete]
    | disconnect =>
      rw [ih]
      simp [applyOp, openSessionFrom, storeLookup_delete]

/-- Both returns of closeConnection carry a Go error exactly when their
status is at least 400. -/
theorem closeConnection_response_consistent (ce : CloseEnv) (msg : String) :
    ((closeConnection ce msg).response.2 ≠ none ↔
      (closeConnection ce msg).response.1.statusCode ≥ 400) := by
  by_cases h : ce.wsClientOk = false
  · simp [closeConnection, h, createResponse]
  · simp [closeConnection, h, createResponse]

/-- Every return path of handleSendMessage produces its response through
closeConnection. -/
theorem handleSendMessage_response_close (env : MsgEnv) :
    ∃ msg : String,
      (handleSendMessage env).response = (closeConnection env.closeEnv msg).response := by
  unfold handleSendMessage shortCircuit streamPhase finishRelay
  dsimp only
  repeat' split
  all_goals exact ⟨_, rfl⟩

/-- Claim C1 (refuted as stated, code bug): the claim says the quota is
decremented exactly when a message_stop terminal event was observed. The
source also closes doneChan when the body hits clean EOF with no
message_stop, and the doneChan branch then decrements the quota: at
quotaEofEnv (empty body, clean EOF) the relay ends completed and the
quota is decremented although the stream holds no message_stop event.
The second conjunct proves the sound half: a decrement is attempted only
in the completed branch (never for an upstream error, client-send error
or timeout end) and only when the second user lookup succeeds. -/
theorem quotaDecrementOnEofWithoutStop :
    ((handleSendMessage quotaEofEnv).decremented = true ∧
      (handleSendMessage quotaEofEnv).fin = some RelayEnd.completed ∧
      hasStopEvent [] = false) ∧
    ∀ env : MsgEnv,
      (handleSendMessage env).decrementAttempted =
        (isCompleted (handleSendMessage env).fin && exceptOk env.doneUser) :=
  ⟨⟨rfl, rfl, rfl⟩, decrementAttempted_eq⟩

/-- Claim C2 (refuted, code bug): the claim says a body reaching
end-of-stream without message_stop must not produce the terminal done
signal. On eofLines (one delta, then EOF, no message_stop) the source's
decoder closes doneChan and returns a nil error, and the surrounding
relay (eofRelayEnv) consequently ends in the completed branch, treating
the truncated stream as a successful completion. -/
theorem doneSignalOnEofWithoutStop :
    (callAnthropicAPI (Upstream.response eofLines ScanEnd.eof)).doneSignaled = true ∧
    (callAnthropicAPI (Upstream.response eofLines ScanEnd.eof)).apiError = false ∧
    hasStopEvent eofLines = false ∧
    (handleSendMessage eofRelayEnv).fin = some RelayEnd.completed :=
  ⟨rfl, rfl, rfl, rfl⟩

/-- Claim C3 counterexample: a successful relay whose delivered fragments
differ from the delta.text values of all content_block_delta events in
the upstream stream, because a delta event placed after the terminal
message_stop is never read by the decoder. -/
theorem deliveredNeAllStreamDeltas :
    (handleSendMessage postStopEnv).fin = some RelayEnd.completed ∧
    (handleSendMessage postStopEnv).delivered ≠ specDeltasAll postStopLines := by
  refine ⟨rfl, ?_⟩
  intro hcontra
  have h1 : (handleSendMessage postStopEnv).delivered = ["a"] := rfl
  have h2 : specDeltasAll postStopLines = ["a", "b"] := rfl
  rw [h1, h2] at hcontra
  simp at hcontra

/-- Claim C3 (amended): for every successful relay the sequence of text
fragments sent to the client equals, element for element and in order,
the delta.text values of the content_block_delta events the decoder
reads, namely those before the terminal message_stop event; events of
any other tag contribute no fragment and no decoded fragment is
reordered, merged or dropped. -/
theorem deliveredEqDeltasRead (env : MsgEnv) (lines : List StreamLine) (e : ScanEnd)
    (hup : env.upstream = Upstream.response lines e)
    (hfin : (handleSendMessage env).fin = some RelayEnd.completed) :
    (handleSendMessage env).delivered = specDeltasRead lines := by
  obtain ⟨-, hdone, hdel, -, -, -, -⟩ := handleSendMessage_completed env hfin
  rw [hup] at hdone hdel
  rw [hdel]
  unfold callAnthropicAPI at hdone ⊢
  dsimp only at hdone ⊢
  exact scanLines_texts e lines "" hdone

/-- Witness for the amended claim C3 at a concrete completed relay. -/
theorem deliveredEqDeltasRead_witness :
    witStopEnv.upstream = Upstream.response witStopLines ScanEnd.eof ∧
    (handleSendMessage witStopEnv).fin = some RelayEnd.completed ∧
    (handleSendMessage witStopEnv).delivered = specDeltasRead witStopLines :=
  ⟨rfl, rfl, deliveredEqDeltasRead witStopEnv witStopLines ScanEnd.eof rfl rfl⟩

/-- Claim C4 (confirmed): when the resolved identity's remaining quota is
at most zero at the time handleSendMessage reads it, no upstream call is
made, no text increment is produced or left pending, the request body is
never parsed or validated, and the connection is closed with the message
about no remaining tokens. -/
theorem quotaGateShortCircuits (env : MsgEnv) (u : String) (q : Int)
    (hu : env.sessionUser = Except.ok u) (hq : env.quota = Except.ok q) (hle : q ≤ 0) :
    (handleSendMessage env).upstreamCalled = false ∧
    (handleSendMessage env).delivered = [] ∧
    (handleSendMessage env).producerPending = [] ∧
    (handleSendMessage env).bodyParseReached = false ∧
    (handleSendMessage env).closeMsg = some "You have no remaining tokens available" := by
  unfold handleSendMessage
  simp [hu, hq, hle, shortCircuit]

/-- Witness for claim C4 at a concrete zero-quota message. -/
theorem quotaGateShortCircuits_witness :
    quotaZeroEnv.sessionUser = Except.ok "user1" ∧
    quotaZeroEnv.quota = Except.ok 0 ∧ (0 : Int) ≤ 0 ∧
    ((handleSendMessage quotaZeroEnv).upstreamCalled = false ∧
      (handleSendMessage quotaZeroEnv).delivered = [] ∧
      (handleSendMessage quotaZeroEnv).producerPending = [] ∧
      (handleSendMessage quotaZeroEnv).bodyParseReached = false ∧
      (handleSendMessage quotaZeroEnv).closeMsg =
        some "You have no remaining tokens available") :=
  ⟨rfl, rfl, le_refl 0, quotaGateShortCircuits quotaZeroEnv "user1" 0 rfl rfl (le_refl 0)⟩

/-- Claim C5 counterexample: a closing path on which an earlier failure
does prevent later cleanup steps. When createWebSocketClient fails,
closeConnection returns at once and neither the connection teardown nor
the session-record removal is attempted. -/
theorem cleanupSkippedWithoutClient :
    (closeConnection
        { wsClientOk := false, sendMsgOk := true, closeOk := true, removeOk := true }
        "relay failed").removeAttempted = false ∧
    (closeConnection
        { wsClientOk := false, sendMsgOk := true, closeOk := true, removeOk := true }
        "relay failed").closeAttempted = false :=
  ⟨rfl, rfl⟩

/-- Claim C5 (amended): provided closeConnection can construct its
push-transport client, the connection teardown and the session delete
are both attempted whatever the outcome of the message send or of each
other, and the returned response is the 200 produced for the empty
message regardless of their failures; on the doneChan completion branch
a failed user lookup or quota decrement is only logged, the close still
runs with the empty message and the returned response is still the
closeConnection response. -/
theorem cleanupRunsGivenClient (ce : CloseEnv) (msg : String) (env : MsgEnv)
    (hws : ce.wsClientOk = true)
    (hfin : (handleSendMessage env).fin = some RelayEnd.completed) :
    (closeConnection ce msg).closeAttempted = true ∧
    (closeConnection ce msg).removeAttempted = true ∧
    (closeConnection ce msg).response = createResponse "" 200 [] ∧
    (handleSendMessage env).closeMsg = some "" ∧
    (handleSendMessage env).response = (closeConnection env.closeEnv "").response := by
  obtain ⟨-, -, -, -, hmsg, hresp, -⟩ := handleSendMessage_completed env hfin
  refine ⟨?_, ?_, ?_, hmsg, hresp⟩ <;> simp [closeConnection, hws]

/-- Witness for the amended claim C5: a completed relay whose
doneChan-branch user lookup and quota decrement both fail. -/
theorem cleanupRunsGivenClient_witness :
    allOkClose.wsClientOk = true ∧
    (handleSendMessage decrFailEnv).fin = some RelayEnd.completed ∧
    ((closeConnection allOkClose "goodbye").closeAttempted = true ∧
      (closeConnection allOkClose "goodbye").removeAttempted = true ∧
      (closeConnection allOkClose "goodbye").response = createResponse "" 200 [] ∧
      (handleSendMessage decrFailEnv).closeMsg = some "" ∧
      (handleSendMessage decrFailEnv).response =
        (closeConnection decrFailEnv.closeEnv "").response) :=
  ⟨rfl, rfl, cleanupRunsGivenClient allOkClose "goodbye" decrFailEnv rfl rfl⟩

/-- Claim C6 (confirmed): a connect whose credential cannot be resolved
(missing protocol header or no AUTH record) stores no session record and
closes the connection without accepting it; a connect whose credential
resolves and whose put succeeds persists exactly one record and accepts
with a 200 echoing the protocol header. -/
theorem connectAuthGate (envA envB : ConnectEnv) (u : String)
    (hfail : envA.authKey = "" ∨ ∃ e, envA.authLookup = Except.error e)
    (hkey : envB.authKey ≠ "") (hok : envB.authLookup = Except.ok u)
    (hstore : envB.storeOk = true) :
    ((handleConnect envA).storePuts = 0 ∧ (handleConnect envA).sessionStored = false ∧
      (handleConnect envA).accepted = false ∧ (handleConnect envA).closeMsg ≠ none) ∧
    ((handleConnect envB).storePuts = 1 ∧ (handleConnect envB).sessionStored = true ∧
      (handleConnect envB).accepted = true ∧ (handleConnect envB).closeMsg = none ∧
      (handleConnect envB).response =
        createResponse "" 200 [("Sec-WebSocket-Protocol", envB.authKey)]) := by
  constructor
  · rcases hfail with hkeyA | ⟨e, herr⟩
    · simp [handleConnect, hkeyA]
    · by_cases hA : envA.authKey = ""
      · simp [handleConnect, hA]
      · simp [handleConnect, hA, herr]
  · simp [handleConnect, hkey, hok, hstore]

/-- Witness for claim C6 at one unresolvable and one resolvable connect. -/
theorem connectAuthGate_witness :
    (badConnectEnv.authKey = "" ∨ ∃ e, badConnectEnv.authLookup = Except.error e) ∧
    goodConnectEnv.authKey ≠ "" ∧
    goodConnectEnv.authLookup = Except.ok "user9" ∧
    goodConnectEnv.storeOk = true ∧
    (((handleConnect badConnectEnv).storePuts = 0 ∧
        (handleConnect badConnectEnv).sessionStored = false ∧
        (handleConnect badConnectEnv).accepted = false ∧
        (handleConnect badConnectEnv).closeMsg ≠ none) ∧
      ((handleConnect goodConnectEnv).storePuts = 1 ∧
        (handleConnect goodConnectEnv).sessionStored = true ∧
        (handleConnect goodConnectEnv).accepted = true ∧
        (handleConnect goodConnectEnv).closeMsg = none ∧
        (handleConnect goodConnectEnv).response =
          createResponse "" 200 [("Sec-WebSocket-Protocol", goodConnectEnv.authKey)])) :=
  ⟨Or.inr ⟨"no item found for auth key", rfl⟩, by decide, rfl, rfl,
    connectAuthGate badConnectEnv goodConnectEnv "user9"
      (Or.inr ⟨"no item found for auth key", rfl⟩) (by decide) rfl rfl⟩

/-- Claim C7 (confirmed): a content_block_delta event whose payload
decodes but lacks the nested delta.text string is skipped silently, the
decode continuing exactly as without that line, while a data line whose
payload does not decode aborts the whole run at once with the
undecodable outcome, which never signals done. -/
theorem deltaShapeMissingSkipsQuietly (eventData : List (String × Json))
    (rest : List StreamLine) (e : ScanEnd) (ce : String)
    (hshape : deltaText eventData = none) :
    scanLines "content_block_delta" (StreamLine.dataLine (some eventData) :: rest) e =
      scanLines "content_block_delta" rest e ∧
    scanLines ce (StreamLine.dataLine none :: rest) e =
      ⟨[], DecodeOutcome.errUndecodable⟩ ∧
    doneOf DecodeOutcome.errUndecodable = false := by
  refine ⟨?_, rfl, rfl⟩
  simp [scanLines, hshape]

/-- Witness for claim C7 at a delta payload without a text field. -/
theorem deltaShapeMissingSkipsQuietly_witness :
    deltaText noTextDelta = none ∧
    (scanLines "content_block_delta" (StreamLine.dataLine (some noTextDelta) :: []) ScanEnd.eof =
        scanLines "content_block_delta" [] ScanEnd.eof ∧
      scanLines "ping" (StreamLine.dataLine none :: []) ScanEnd.eof =
        ⟨[], DecodeOutcome.errUndecodable⟩ ∧
      doneOf DecodeOutcome.errUndecodable = false) :=
  ⟨rfl, deltaShapeMissingSkipsQuietly noTextDelta [] ScanEnd.eof "ping" rfl⟩

/-- Claim C8 counterexample: after a successful connect, a message relay
whose closeConnection cannot construct its push-transport client reaches
the Closed transition without deleting the session record, so the record
outlives the interval the claim describes. -/
theorem sessionSurvivesClosedTransition :
    storeLookup (runOps "conn1" []
        [ConnOp.connectOk "userA", ConnOp.message false]) "conn1" = some "userA" ∧
    openSession [ConnOp.connectOk "userA", ConnOp.message false] = none :=
  ⟨rfl, rfl⟩

/-- Claim C8 (amended): the session store contains an entry for a
connection id exactly during the interval between the last successful
connect and the first following Closed transition that reaches its
session delete (a closeConnection whose push-transport client cannot be
constructed skips the delete and leaves the record); handleDisconnect
unconditionally removes the record, is idempotent and returns no error
even for an absent record. -/
theorem sessionIntervalInvariant :
    (∀ (cid : String) (ops : List ConnOp),
      storeLookup (runOps cid [] ops) cid = openSessionCode ops) ∧
    (∀ (s : Store) (cid : String),
      handleDisconnect (handleDisconnect s cid).1 cid = handleDisconnect s cid ∧
      (handleDisconnect s cid).2.2 = none ∧
      storeLookup (handleDisconnect s cid).1 cid = none) := by
  constructor
  · intro cid ops
    simpa [openSessionCode] using runOps_lookup cid ops []
  · intro s cid
    refine ⟨?_, rfl, storeLookup_delete s cid⟩
    unfold handleDisconnect
    simp [storeDelete, List.filter_filter]

/-- Claim C9 (refuted, code bug): the claim requires that the producer
can never stay blocked on a text-channel send after the consumer loop
has exited. The source's channel is unbuffered and the producer's send
selects against nothing, so at leakEnv, where the first client post
fails, the consumer leaves through the send-failure branch while the
producer still holds the second fragment and blocks on it forever. -/
theorem producerBlockedAfterConsumerExit :
    (handleSendMessage leakEnv).fin = some RelayEnd.clientSendError ∧
    (handleSendMessage leakEnv).producerPending = ["b"] ∧
    (handleSendMessage leakEnv).producerPending ≠ [] := by
  refine ⟨rfl, rfl, ?_⟩
  intro h
  have h2 : (handleSendMessage leakEnv).producerPending = ["b"] := rfl
  rw [h2] at h
  simp at h

/-- Claim C10 (confirmed): createResponse returns a non-nil Go error
exactly when the status code is at least 400, its body is always the
given message, and the headers map is attached only when non-empty; and
every response returned through the HandleRequest dispatch carries a
non-nil error exactly when its status code is at least 400. -/
theorem createResponseContract :
    (∀ (message : String) (statusCode : Int) (headers : List (String × String)),
      ((createResponse message statusCode headers).2 ≠ none ↔ statusCode ≥ 400) ∧
      (createResponse message statusCode headers).1.body = message ∧
      ((createResponse message statusCode headers).1.headers ≠ none ↔ headers ≠ [])) ∧
    (∀ ev : RouteEvent,
      ((handleRequest ev).2 ≠ none ↔ (handleRequest ev).1.statusCode ≥ 400)) := by
  constructor
  · intro message statusCode headers
    refine ⟨?_, ?_, ?_⟩
    · by_cases h : statusCode ≥ 400 <;> simp [createResponse, h]
    · by_cases h : statusCode ≥ 400 <;> simp [createResponse, h]
    · by_cases h : statusCode ≥ 400 <;>
        · cases headers <;> simp [createResponse, h]
  · intro ev
    cases ev with
    | connect env =>
      unfold handleRequest handleConnect
      by_cases hk : env.authKey = ""
      · simp only [if_pos hk]
        exact closeConnection_response_consistent env.closeEnv _
      · simp only [if_neg hk]
        cases hl : env.authLookup with
        | error e =>
          exact closeConnection_response_consistent env.closeEnv _
        | ok u =>
          by_cases hs : env.storeOk
          · simp only [hs, if_pos]
            norm_num [createResponse]
          · simp only [hs]
            exact closeConnection_response_consistent env.closeEnv _
    | disconnect s cid =>
      norm_num [handleRequest, handleDisconnect, createResponse]
    | message env =>
      obtain ⟨msg, hm⟩ := handleSendMessage_response_close env
      unfold handleRequest
      dsimp only
      rw [hm]
      exact closeConnection_response_consistent env.closeEnv msg

end Relay
